import Mathlib

set_option maxRecDepth 8192

/-!
Shallow embedding of the cs-modbus master library core: the CRC-16 routine and
frame builders shared by the RTU and Tunnel transports, the RTU end-of-frame
handler, the IP (MBAP) header reader/validator and transaction-id counter, the
Tunnel transport's queue and inbound-frame dispatch, and the function codec
types named by the claims.  Buffers are `List Nat` of byte values; the
`h5.buffers` reader/builder operations used by the source are modelled as the
corresponding list operations.
-/

/-- Reads a big-endian 16-bit value at `i`, as `Buffer.readUInt16BE` does
(bytes in range are guaranteed by the callers' length assertions). -/
def readUInt16BE (bytes : List Nat) (i : Nat) : Nat :=
  bytes.getD i 0 * 256 + bytes.getD (i + 1) 0

/-- Serializes a 16-bit value big-endian, as `Buffer.writeUInt16BE` does. -/
def writeUInt16BE (v : Nat) : List Nat :=
  [v / 256 % 256, v % 256]

/-- Serializes a 16-bit value little-endian, as `builder.pushUInt16(v, true)`
from `h5.buffers` does. -/
def writeUInt16LE (v : Nat) : List Nat :=
  [v % 256, v / 256 % 256]

/-- Reads a little-endian 16-bit value from the front of the byte queue, as
`reader.shiftUInt16(true)` from `h5.buffers` does. -/
def shiftUInt16LE (bytes : List Nat) : Nat :=
  bytes.getD 0 0 + 256 * bytes.getD 1 0

/-- The precomputed 256-entry MODBUS CRC-16 table.  The source holds two
byte-identical copies of this constant, `CRC_TABLE` in `RtuTransport` and in
`TunnelTransport`. -/
def CRC_TABLE : Array Nat := #[
  0x0000, 0xC0C1, 0xC181, 0x0140, 0xC301, 0x03C0, 0x0280, 0xC241,
  0xC601, 0x06C0, 0x0780, 0xC741, 0x0500, 0xC5C1, 0xC481, 0x0440,
  0xCC01, 0x0CC0, 0x0D80, 0xCD41, 0x0F00, 0xCFC1, 0xCE81, 0x0E40,
  0x0A00, 0xCAC1, 0xCB81, 0x0B40, 0xC901, 0x09C0, 0x0880, 0xC841,
  0xD801, 0x18C0, 0x1980, 0xD941, 0x1B00, 0xDBC1, 0xDA81, 0x1A40,
  0x1E00, 0xDEC1, 0xDF81, 0x1F40, 0xDD01, 0x1DC0, 0x1C80, 0xDC41,
  0x1400, 0xD4C1, 0xD581, 0x1540, 0xD701, 0x17C0, 0x1680, 0xD641,
  0xD201, 0x12C0, 0x1380, 0xD341, 0x1100, 0xD1C1, 0xD081, 0x1040,
  0xF001, 0x30C0, 0x3180, 0xF141, 0x3300, 0xF3C1, 0xF281, 0x3240,
  0x3600, 0xF6C1, 0xF781, 0x3740, 0xF501, 0x35C0, 0x3480, 0xF441,
  0x3C00, 0xFCC1, 0xFD81, 0x3D40, 0xFF01, 0x3FC0, 0x3E80, 0xFE41,
  0xFA01, 0x3AC0, 0x3B80, 0xFB41, 0x3900, 0xF9C1, 0xF881, 0x3840,
  0x2800, 0xE8C1, 0xE981, 0x2940, 0xEB01, 0x2BC0, 0x2A80, 0xEA41,
  0xEE01, 0x2EC0, 0x2F80, 0xEF41, 0x2D00, 0xEDC1, 0xEC81, 0x2C40,
  0xE401, 0x24C0, 0x2580, 0xE541, 0x2700, 0xE7C1, 0xE681, 0x2640,
  0x2200, 0xE2C1, 0xE381, 0x2340, 0xE101, 0x21C0, 0x2080, 0xE041,
  0xA001, 0x60C0, 0x6180, 0xA141, 0x6300, 0xA3C1, 0xA281, 0x6240,
  0x6600, 0xA6C1, 0xA781, 0x6740, 0xA501, 0x65C0, 0x6480, 0xA441,
  0x6C00, 0xACC1, 0xAD81, 0x6D40, 0xAF01, 0x6FC0, 0x6E80, 0xAE41,
  0xAA01, 0x6AC0, 0x6B80, 0xAB41, 0x6900, 0xA9C1, 0xA881, 0x6840,
  0x7800, 0xB8C1, 0xB981, 0x7940, 0xBB01, 0x7BC0, 0x7A80, 0xBA41,
  0xBE01, 0x7EC0, 0x7F80, 0xBF41, 0x7D00, 0xBDC1, 0xBC81, 0x7C40,
  0xB401, 0x74C0, 0x7580, 0xB541, 0x7700, 0xB7C1, 0xB681, 0x7640,
  0x7200, 0xB2C1, 0xB381, 0x7340, 0xB101, 0x71C0, 0x7080, 0xB041,
  0x5000, 0x90C1, 0x9181, 0x5140, 0x9301, 0x53C0, 0x5280, 0x9241,
  0x9601, 0x56C0, 0x5780, 0x9741, 0x5500, 0x95C1, 0x9481, 0x5440,
  0x9C01, 0x5CC0, 0x5D80, 0x9D41, 0x5F00, 0x9FC1, 0x9E81, 0x5E40,
  0x5A00, 0x9AC1, 0x9B81, 0x5B40, 0x9901, 0x59C0, 0x5880, 0x9841,
  0x8801, 0x48C0, 0x4980, 0x8941, 0x4B00, 0x8BC1, 0x8A81, 0x4A40,
  0x4E00, 0x8EC1, 0x8F81, 0x4F40, 0x8D01, 0x4DC0, 0x4C80, 0x8C41,
  0x4400, 0x84C1, 0x8581, 0x4540, 0x8701, 0x47C0, 0x4680, 0x8641,
  0x8201, 0x42C0, 0x4380, 0x8341, 0x4100, 0x81C1, 0x8081, 0x4040]

/-- One step of the table-driven CRC: `j = (crc ^ b) & 0xFF;
crc = (crc >> 8) ^ CRC_TABLE[j]`. -/
def crcStep (crc b : Nat) : Nat :=
  (crc >>> 8) ^^^ CRC_TABLE.getD ((crc ^^^ b) &&& 0xFF) 0

/-- The transports' `crc16(firstByte, buffer)`: seed `0xFFFF`, fold the first
byte and then every buffer byte through the table.  All call sites reached by
the claims pass an actual unit byte as `firstByte`, so the source's `-1`
skip-sentinel branch is never taken and is not modelled. -/
def crc16 (firstByte : Nat) (buffer : List Nat) : Nat :=
  buffer.foldl crcStep (crcStep 0xFFFF firstByte)

/-- RtuTransport's `MIN_FRAME_LENGTH`. -/
def MIN_FRAME_LENGTH : Nat := 5

/-- RtuTransport's frame builder: `[unit] ++ pdu ++ crc16(unit, pdu)` with the
CRC pushed little-endian (`pushUInt16(..., true)`), so the CRC low byte goes
on the wire first.  The source also records the ADU length in the module
global `PREV_MSG_COUNT`; that length equals `(rtuFrame unit pdu).length` and
is passed explicitly to the frame handler below. -/
def rtuFrame (unit : Nat) (pdu : List Nat) : List Nat :=
  unit :: pdu ++ writeUInt16LE (crc16 unit pdu)

/-- Error kinds the RTU frame handler can report to the transaction. -/
inductive RtuError where
  | incompleteResponseFrame
  | invalidChecksum
  | invalidResponseData
  deriving DecidableEq, Repr

/-- Outcome of one firing of the RTU end-of-frame timer with a transaction in
flight.  `delivered b` means the parsed frame passed validation and `b` was
handed to `request.createResponse`, whose result (response, or a decode error)
is delivered to the transaction.  `noEchoReturn` is the echo-enabled branch in
which the handler empties the reader and returns without touching the
transaction (the source's no-echo error delivery is commented out). -/
inductive RtuOutcome where
  | failed (e : RtuError)
  | delivered (responseBuffer : List Nat)
  | noEchoReturn
  deriving DecidableEq, Repr

/-- RtuTransport's `validate`: CRC check first, then the unit check. -/
def rtuValidate (expectedUnit unit : Nat) (responseBuffer : List Nat)
    (expectedChecksum : Nat) : Option RtuError :=
  if crc16 unit responseBuffer ≠ expectedChecksum then
    some .invalidChecksum
  else if unit ≠ expectedUnit then
    some .invalidResponseData
  else
    none

/-- The shift sequence shared by both branches of `handleFrameData`:
`unit = shiftByte(); responseBuffer = shiftBuffer(reader.length - 2);
checksum = shiftUInt16(true)`, followed by `validate` and, on success,
delivery of `responseBuffer`. -/
def rtuParseAndValidate (expectedUnit : Nat) (bytes : List Nat) : RtuOutcome :=
  let unit := bytes.headD 0
  let rest := bytes.drop 1
  let responseBuffer := rest.take (rest.length - 2)
  let checksum := shiftUInt16LE (rest.drop (rest.length - 2))
  match rtuValidate expectedUnit unit responseBuffer checksum with
  | some e => .failed e
  | none => .delivered responseBuffer

/-- RtuTransport's `handleFrameData`, fired by the end-of-frame timer with a
transaction in flight.  `prevMsgCount` is the module global `PREV_MSG_COUNT`
(the length of the most recently transmitted ADU); the updated value of that
global is returned alongside the outcome.  Mirrors the source: the
under-5-bytes check comes first; with `enableEcho` the global is zeroed when
fewer bytes than it arrived, bumped to 1 when zero, and then either that many
bytes are skipped before the normal parse, or (when no bytes would remain) the
whole buffer is discarded and the handler returns without erroring the
transaction. -/
def rtuHandleFrameData (enableEcho : Bool) (expectedUnit prevMsgCount : Nat)
    (bytes : List Nat) : RtuOutcome × Nat :=
  if bytes.length < MIN_FRAME_LENGTH then
    (.failed .incompleteResponseFrame, prevMsgCount)
  else if enableEcho then
    let p := if bytes.length < prevMsgCount then 0 else prevMsgCount
    let p := if p = 0 then 1 else p
    if bytes.length > p then
      (rtuParseAndValidate expectedUnit (bytes.drop p), p)
    else
      (.noEchoReturn, p)
  else
    (rtuParseAndValidate expectedUnit bytes, prevMsgCount)

/-- The parsed MBAP header, as IpTransport.Header stores it.  Fields are `Int`
because `read` stores the wire length field minus one, which is `-1` when the
wire field is `0`, and `reset` parks every field at `-1`. -/
structure MbapHeader where
  id : Int
  version : Int
  length : Int
  unit : Int
  deriving DecidableEq, Repr

/-- IpTransport.Header's `read`: shifts the transaction id, the protocol id
(stored as `version`), the length field minus one, and the unit byte off the
front of the byte queue (16-bit fields big-endian). -/
def headerRead (bytes : List Nat) : MbapHeader :=
  { id := readUInt16BE bytes 0
    version := readUInt16BE bytes 2
    length := (readUInt16BE bytes 4 : Int) - 1
    unit := bytes.getD 6 0 }

/-- Which header field the validation message names; every variant is wrapped
in the same `InvalidResponseDataError` class by the source. -/
inductive MbapHeaderFault where
  | version
  | length
  | unit
  deriving DecidableEq, Repr

/-- IpTransport.Header's `validate` against the matched transaction's unit:
the stored protocol id (`version`) is checked first, then the stored length,
then the unit; the first failing check wins and an `InvalidResponseDataError`
with the corresponding message is returned. -/
def headerValidate (h : MbapHeader) (expectedUnit : Int) : Option MbapHeaderFault :=
  if h.version ≠ 0 then
    some .version
  else if h.length = 0 then
    some .length
  else if h.unit ≠ expectedUnit then
    some .unit
  else
    none

/-- IpTransport's `getNextTransactionId` acting on the stored counter: the
counter is pre-incremented, reset to zero when it hits `0xFFFF`, and the new
counter value is returned as the transaction id.  Result is
`(new counter, returned id)`. -/
def getNextTransactionId (nextTransactionId : Nat) : Nat × Nat :=
  let n := nextTransactionId + 1
  if n = 0xFFFF then (0, 0) else (n, n)

/-- Counter value after `k` calls to `getNextTransactionId`, starting from a
fresh transport (counter `0`).  Since each call returns the new counter value,
this is also the transaction id handed out by the `k`-th call for `k ≥ 1`. -/
def txIdAfter (k : Nat) : Nat :=
  Nat.iterate (fun n => (getNextTransactionId n).1) k 0

/-- MODBUS function code of the tunnel dialect's `SLAVE_COMMAND` poll. -/
def SLAVE_COMMAND : Nat := 71

/-- The tunnel transport state the claims range over: the current and next
queued transactions (opaque ids) and the 8-bit sequence counter. -/
structure TunnelState where
  transaction : Option Nat
  nextTransaction : Option Nat
  sequence : Nat
  deriving DecidableEq, Repr

/-- Observable effects of one tunnel inbound-frame dispatch, in order:
`sniff` events, delivery of response bytes to a transaction (the bytes are
what `request.createResponse` receives; its result, a response or a decode
error, is delivered to that transaction), the start of a newly current
transaction, and the write of the slave reply. -/
inductive TunnelEvent where
  | sniffIncomplete
  | sniffBadChecksum
  | sniffPdu
  | deliver (transaction : Nat) (responseBytes : List Nat)
  | started (transaction : Nat)
  | sentSlaveResponse
  deriving DecidableEq, Repr

/-- TunnelTransport's `startTransaction`: emits `request` and starts the
timeout when a current transaction exists. -/
def tunnelStartTransaction (s : TunnelState) : List TunnelEvent :=
  match s.transaction with
  | some t => [.started t]
  | none => []

/-- TunnelTransport's `sendRequest`: with a current transaction and a next one
already queued it throws; with only a current one it stores the submitted
transaction as next and returns; otherwise the submitted transaction becomes
current and is started. -/
def tunnelSendRequest (s : TunnelState) (t : Nat) :
    Except String (TunnelState × List TunnelEvent) :=
  if s.transaction ≠ none then
    if s.nextTransaction ≠ none then
      .error "Sending too many requests to TunnelTransport."
    else
      .ok ({ s with nextTransaction := some t }, [])
  else
    let s := { s with transaction := some t }
    .ok (s, tunnelStartTransaction s)

/-- TunnelTransport's frame builder, byte-identical to the RTU one: unit,
PDU, then the CRC-16 little-endian. -/
def tunnelFrame (unit : Nat) (pdu : List Nat) : List Nat :=
  unit :: pdu ++ writeUInt16LE (crc16 unit pdu)

/-- TunnelTransport's `validate`: only the CRC is checked (no unit check in
this transport). -/
def tunnelValidate (unit : Nat) (responseBuffer : List Nat)
    (expectedChecksum : Nat) : Bool :=
  crc16 unit responseBuffer == expectedChecksum

/-- TunnelTransport's `handleFrameData`, fired by the end-of-frame timer:
frames under 4 bytes are sniffed as incomplete and flushed; otherwise the
unit byte, PDU and little-endian CRC are shifted off, a CRC mismatch is
sniffed and ignored, and a well-framed frame addressed to our slave id whose
PDU starts with `SLAVE_COMMAND` and the current sequence value increments the
sequence modulo 256, closes out the current transaction with the PDU bytes
from index 3 when one is pending and the PDU is longer than 2 bytes (the next
queued transaction then becomes current and is started), and sends the slave
reply; out-of-sequence polls only elicit the reply, and non-`SLAVE_COMMAND`
PDUs addressed to us are ignored.  Result is `(new state, events)`. -/
def tunnelHandleFrameData (slaveId : Nat) (s : TunnelState) (bytes : List Nat) :
    TunnelState × List TunnelEvent :=
  if bytes.length < 4 then
    (s, [.sniffIncomplete])
  else
    let unit := bytes.headD 0
    let rest := bytes.drop 1
    let responseBuffer := rest.take (rest.length - 2)
    let checksum := shiftUInt16LE (rest.drop (rest.length - 2))
    if ¬tunnelValidate unit responseBuffer checksum then
      (s, [.sniffBadChecksum])
    else if unit = slaveId then
      if responseBuffer.get? 0 = some SLAVE_COMMAND then
        if responseBuffer.get? 1 = some s.sequence then
          let s := { s with sequence := (s.sequence + 1) &&& 255 }
          if s.transaction ≠ none ∧ responseBuffer.length > 2 then
            let t := s.transaction.getD 0
            let s := { s with transaction := s.nextTransaction,
                              nextTransaction := none }
            (s, [.sniffPdu, .deliver t (responseBuffer.drop 3)]
                  ++ tunnelStartTransaction s ++ [.sentSlaveResponse])
          else
            (s, [.sniffPdu, .sentSlaveResponse])
        else
          (s, [.sniffPdu, .sentSlaveResponse])
      else
        (s, [.sniffPdu])
    else
      (s, [.sniffPdu])

/-- Error kinds of the function codec. -/
inductive CodecError where
  | invalidOptions
  | incompletePdu
  | invalidFunctionCode
  deriving DecidableEq, Repr

/-- Modelled from the spec: the codec helper `util.assertBufferLength` of the
missing `lib/functions/util.js` — a length check preceding the content
checks; a buffer shorter than the required length fails with
`IncompletePdu`. -/
def assertBufferLength (bytes : List Nat) (minLength : Nat) :
    Except CodecError Unit :=
  if bytes.length < minLength then .error .incompletePdu else .ok ()

/-- Modelled from the spec: the codec helper `util.assertFunctionCode` of the
missing `lib/functions/util.js` — a wrong function code fails with
`InvalidFunctionCode`. -/
def assertFunctionCode (actual expected : Nat) : Except CodecError Unit :=
  if actual ≠ expected then .error .invalidFunctionCode else .ok ()

/-- Modelled from the spec: the codec helper `util.prepareAddress` of the
missing `lib/functions/util.js` — address range validation, address must lie
in `[0, 0xFFFF]`, out-of-range values fail with `InvalidOptions`. -/
def prepareAddress (address : Nat) : Except CodecError Nat :=
  if address ≤ 0xFFFF then .ok address else .error .invalidOptions

/-- Modelled from the spec: the codec helper `util.prepareRegisterValue` of
the missing `lib/functions/util.js` — register values must lie in
`[0, 0xFFFF]`. -/
def prepareRegisterValue (value : Nat) : Except CodecError Nat :=
  if value ≤ 0xFFFF then .ok value else .error .invalidOptions

/-- The write single coil response value (function code 0x05): an output
address and the decoded coil state. -/
structure WriteSingleCoilResponse where
  address : Nat
  state : Bool
  deriving DecidableEq, Repr

/-- The `WriteSingleCoilResponse` constructor: validates the address and
coerces the state to a boolean. -/
def WriteSingleCoilResponse.make (address : Nat) (state : Bool) :
    Except CodecError WriteSingleCoilResponse := do
  let a ← prepareAddress address
  return { address := a, state := state }

/-- WriteSingleCoilResponse's `fromBuffer`: asserts at least 5 bytes and
function code 0x05, reads the address big-endian at offset 1, and decodes the
state as ON exactly when the 16-bit value at offset 3 equals `0xFF00`. -/
def WriteSingleCoilResponse.fromBuffer (buffer : List Nat) :
    Except CodecError WriteSingleCoilResponse := do
  let _ ← assertBufferLength buffer 5
  let _ ← assertFunctionCode (buffer.getD 0 0) 0x05
  let address := readUInt16BE buffer 1
  let state := readUInt16BE buffer 3 == 0xFF00
  WriteSingleCoilResponse.make address state

/-- WriteSingleCoilResponse's `toBuffer`: function code, address big-endian,
then `0xFF00` when the state is ON and `0x0000` otherwise. -/
def WriteSingleCoilResponse.toBuffer (r : WriteSingleCoilResponse) : List Nat :=
  0x05 :: writeUInt16BE r.address ++ writeUInt16BE (if r.state then 0xFF00 else 0x0000)

/-- The read diagnostics response value (function code 0x08) as the source
stores it: an `address` field and a `value` field. -/
structure ReadDiagnosticsResponse where
  address : Nat
  value : Nat
  deriving DecidableEq, Repr

/-- The `ReadDiagnosticsResponse` constructor.  In the source it declares a
single parameter named `value`: it validates that parameter as the address
and stores `prepareRegisterValue(0)` — the constant `0` — as the value. -/
def ReadDiagnosticsResponse.make (value : Nat) :
    Except CodecError ReadDiagnosticsResponse := do
  let a ← prepareAddress value
  let v ← prepareRegisterValue 0
  return { address := a, value := v }

/-- ReadDiagnosticsResponse's `fromBuffer`: asserts at least 5 bytes and
function code 0x08, reads `address` at offset 1 and `value` at offset 3 (both
big-endian), and calls the constructor.  The source calls the one-parameter
constructor with two arguments, so the `value` read from the buffer is
discarded. -/
def ReadDiagnosticsResponse.fromBuffer (buffer : List Nat) :
    Except CodecError ReadDiagnosticsResponse := do
  let _ ← assertBufferLength buffer 5
  let _ ← assertFunctionCode (buffer.getD 0 0) 0x08
  let address := readUInt16BE buffer 1
  ReadDiagnosticsResponse.make address

/-- ReadDiagnosticsResponse's `toBuffer`: function code 0x08, then the stored
address and value, both big-endian. -/
def ReadDiagnosticsResponse.toBuffer (r : ReadDiagnosticsResponse) : List Nat :=
  0x08 :: writeUInt16BE r.address ++ writeUInt16BE r.value

/-- Claim C1 (code bug): the round-trip law `toBuffer (fromBuffer B) = B` fails
for `ReadDiagnosticsResponse`.  On the well-formed 5-byte PDU
`08 00 00 00 01` the decoder discards the value field — the source passes two
arguments to a one-parameter constructor, which always stores `0` as the
value — so re-encoding yields `08 00 00 00 00`, not the input. -/
theorem readDiagnostics_fromBuffer_drops_value :
    (ReadDiagnosticsResponse.fromBuffer [0x08, 0, 0, 0, 1]).map
        ReadDiagnosticsResponse.toBuffer = .ok [0x08, 0, 0, 0, 0] ∧
    [0x08, 0, 0, 0, (0 : Nat)] ≠ [0x08, 0, 0, 0, 1] := by
  exact ⟨rfl, by decide⟩

/-- Claim C2 (counterexample): the CRC-16 of unit byte `0x01` followed by the
single PDU byte `0x11` is not the claimed `0xD080`. -/
theorem crc16_reference_vector_not_d080 : crc16 0x01 [0x11] ≠ 0xD080 := by
  decide

/-- Claim C2 (amended): the RTU/Tunnel `crc16` (seed `0xFFFF`, 256-entry
table) of unit byte `0x01` followed by the single PDU byte `0x11` is
`0x2CC0`, and on the wire the low byte is transmitted first (`C0 2C`). -/
theorem crc16_reference_vector :
    crc16 0x01 [0x11] = 0x2CC0 ∧ rtuFrame 0x01 [0x11] = [0x01, 0x11, 0xC0, 0x2C] := by
  constructor
  · rfl
  · rfl

/-- Claim C3: when the RTU end-of-frame timer fires with a transaction in
flight (echo disabled), validation is ordered: fewer than 5 bytes fails with
`IncompleteResponseFrame`; otherwise a CRC mismatch fails with
`InvalidChecksum`; otherwise a unit mismatch fails with
`InvalidResponseData`; only a frame passing all three checks has its PDU
bytes decoded and delivered as the response. -/
theorem rtu_frame_validation_ordering (expectedUnit prevMsgCount : Nat)
    (bytes : List Nat) :
    (bytes.length < 5 →
      rtuHandleFrameData false expectedUnit prevMsgCount bytes =
        (.failed .incompleteResponseFrame, prevMsgCount)) ∧
    (5 ≤ bytes.length →
      crc16 (bytes.headD 0) ((bytes.drop 1).take ((bytes.drop 1).length - 2)) ≠
        shiftUInt16LE ((bytes.drop 1).drop ((bytes.drop 1).length - 2)) →
      rtuHandleFrameData false expectedUnit prevMsgCount bytes =
        (.failed .invalidChecksum, prevMsgCount)) ∧
    (5 ≤ bytes.length →
      crc16 (bytes.headD 0) ((bytes.drop 1).take ((bytes.drop 1).length - 2)) =
        shiftUInt16LE ((bytes.drop 1).drop ((bytes.drop 1).length - 2)) →
      bytes.headD 0 ≠ expectedUnit →
      rtuHandleFrameData false expectedUnit prevMsgCount bytes =
        (.failed .invalidResponseData, prevMsgCount)) ∧
    (5 ≤ bytes.length →
      crc16 (bytes.headD 0) ((bytes.drop 1).take ((bytes.drop 1).length - 2)) =
        shiftUInt16LE ((bytes.drop 1).drop ((bytes.drop 1).length - 2)) →
      bytes.headD 0 = expectedUnit →
      rtuHandleFrameData false expectedUnit prevMsgCount bytes =
        (.delivered ((bytes.drop 1).take ((bytes.drop 1).length - 2)),
          prevMsgCount)) := by
  refine ⟨fun h1 => ?_, fun h1 h2 => ?_, fun h1 h2 h3 => ?_, fun h1 h2 h3 => ?_⟩
  · simp only [rtuHandleFrameData, MIN_FRAME_LENGTH]
    split_ifs
    rfl
  all_goals
    have h0 : ¬ bytes.length < 5 := Nat.not_lt.mpr h1
  · simp only [rtuHandleFrameData, rtuParseAndValidate, rtuValidate,
      MIN_FRAME_LENGTH]
    split_ifs <;> first | rfl | contradiction
  · have h2' : ¬ (crc16 (bytes.headD 0)
        ((bytes.drop 1).take ((bytes.drop 1).length - 2)) ≠
        shiftUInt16LE ((bytes.drop 1).drop ((bytes.drop 1).length - 2))) :=
      not_not_intro h2
    simp only [rtuHandleFrameData, rtuParseAndValidate, rtuValidate,
      MIN_FRAME_LENGTH]
    split_ifs <;> first | rfl | contradiction
  · have h2' : ¬ (crc16 (bytes.headD 0)
        ((bytes.drop 1).take ((bytes.drop 1).length - 2)) ≠
        shiftUInt16LE ((bytes.drop 1).drop ((bytes.drop 1).length - 2))) :=
      not_not_intro h2
    simp only [rtuHandleFrameData, rtuParseAndValidate, rtuValidate,
      MIN_FRAME_LENGTH]
    split_ifs <;> first | rfl | contradiction

/-- Witness for claim C3: a concrete well-formed frame for unit 1 passes all
three checks and its PDU is delivered. -/
theorem rtu_frame_validation_ordering_witness :
    rtuHandleFrameData false 1 0 (rtuFrame 1 [3, 0]) =
      (.delivered [3, 0], 0) := by
  have h := (rtu_frame_validation_ordering 1 0 (rtuFrame 1 [3, 0])).2.2.2
    (by decide) (by decide) (by decide)
  simpa using h

/-- Claim C4 (counterexample): a received MBAP header whose wire length field
is `0` (bytes `00 01 00 00 00 00 09`: txid 1, protocol id 0, length field 0,
unit 9) passes validation against a transaction with unit 9, producing no
`InvalidResponseData` — the length check tests the stored value, which is the
wire field minus one. -/
theorem mbap_zero_length_field_passes_validation :
    readUInt16BE [0, 1, 0, 0, 0, 0, 9] 4 = 0 ∧
    headerValidate (headerRead [0, 1, 0, 0, 0, 0, 9]) 9 = none := by
  exact ⟨rfl, rfl⟩

/-- Claim C4 (amended): header validation fails (always with
`InvalidResponseData`) exactly when the protocol-id field is non-zero, or the
wire length field is 1 (so the stored length — the PDU byte count — is 0), or
the unit differs from the matched transaction's unit; and a non-zero
protocol id is checked before the length and unit checks. -/
theorem mbap_header_validation (bytes : List Nat) (expectedUnit : Int) :
    (headerValidate (headerRead bytes) expectedUnit ≠ none ↔
      ((readUInt16BE bytes 2 : Int) ≠ 0 ∨ (readUInt16BE bytes 4 : Int) = 1 ∨
        (bytes.getD 6 0 : Int) ≠ expectedUnit)) ∧
    ((readUInt16BE bytes 2 : Int) ≠ 0 →
      headerValidate (headerRead bytes) expectedUnit = some .version) := by
  constructor
  · simp only [headerValidate, headerRead]
    split_ifs with hv hl hu <;> simp_all <;> omega
  · intro hv
    simp only [headerValidate, headerRead]
    rw [if_pos hv]

/-- Witness for claim C4: a header with a non-zero protocol id field fails
with the protocol-id (version) message. -/
theorem mbap_header_validation_witness :
    headerValidate (headerRead [0, 1, 5, 5, 0, 1, 9]) 9 = some .version :=
  (mbap_header_validation [0, 1, 5, 5, 0, 1, 9] 9).2 (by decide)

/-- Claim C5: a well-framed Tunnel frame addressed to our slave id whose PDU
is `[SLAVE_COMMAND][current sequence][...]`, with a transaction pending and
more than 2 PDU bytes, delivers the PDU bytes from index 3 as the response to
the current transaction, increments the sequence modulo 256, and promotes the
next queued transaction (if any) to current. -/
theorem tunnel_inseq_response_delivery (slaveId : Nat) (s : TunnelState)
    (bytes : List Nat) (t : Nat)
    (hlen : 4 ≤ bytes.length)
    (hcrc : tunnelValidate (bytes.headD 0)
        ((bytes.drop 1).take ((bytes.drop 1).length - 2))
        (shiftUInt16LE ((bytes.drop 1).drop ((bytes.drop 1).length - 2))) = true)
    (hunit : bytes.headD 0 = slaveId)
    (hfc : ((bytes.drop 1).take ((bytes.drop 1).length - 2)).get? 0 =
      some SLAVE_COMMAND)
    (hseq : ((bytes.drop 1).take ((bytes.drop 1).length - 2)).get? 1 =
      some s.sequence)
    (ht : s.transaction = some t)
    (hmore : ((bytes.drop 1).take ((bytes.drop 1).length - 2)).length > 2) :
    (tunnelHandleFrameData slaveId s bytes).1 =
      { transaction := s.nextTransaction, nextTransaction := none,
        sequence := (s.sequence + 1) % 256 } ∧
    TunnelEvent.deliver t (((bytes.drop 1).take ((bytes.drop 1).length - 2)).drop 3) ∈
      (tunnelHandleFrameData slaveId s bytes).2 := by
  have hmod : (s.sequence + 1) &&& 255 = (s.sequence + 1) % 256 := by
    simpa using Nat.and_pow_two_sub_one_eq_mod (s.sequence + 1) 8
  have hlen2 : ¬ bytes.length < 4 := Nat.not_lt.mpr hlen
  have hcond : s.transaction ≠ none ∧
      ((bytes.drop 1).take ((bytes.drop 1).length - 2)).length > 2 :=
    ⟨by simp [ht], hmore⟩
  simp only [tunnelHandleFrameData]
  split_ifs
  constructor
  · simp [hmod]
  · simp [ht]

/-- Witness for claim C5: a concrete in-sequence `SLAVE_COMMAND` frame for
slave 127 with sequence 0 delivers PDU bytes `[8, 7]` to the current
transaction, bumps the sequence to 1, and promotes the queued transaction. -/
theorem tunnel_inseq_response_delivery_witness :
    (tunnelHandleFrameData 127 ⟨some 1, some 2, 0⟩
        (tunnelFrame 127 [71, 0, 9, 8, 7])).1 = ⟨some 2, none, 1⟩ ∧
    TunnelEvent.deliver 1 [8, 7] ∈
      (tunnelHandleFrameData 127 ⟨some 1, some 2, 0⟩
        (tunnelFrame 127 [71, 0, 9, 8, 7])).2 := by
  have h := tunnel_inseq_response_delivery 127 ⟨some 1, some 2, 0⟩
    (tunnelFrame 127 [71, 0, 9, 8, 7]) 1 (by decide) (by decide) (by decide)
    (by decide) (by decide) rfl (by decide)
  exact ⟨by simpa using h.1, by simpa using h.2⟩

/-- Helper: the transaction-id counter after `k` calls is `k mod 0xFFFF`. -/
theorem txIdAfter_eq_mod (k : Nat) : txIdAfter k = k % 0xFFFF := by
  induction k with
  | zero => rfl
  | succ n ih =>
    have step : txIdAfter (n + 1) = (getNextTransactionId (txIdAfter n)).1 := by
      simp [txIdAfter, Function.iterate_succ_apply']
    rw [step, ih, getNextTransactionId]
    split
    · omega
    · omega

/-- Claim C6: starting from a fresh IP transport, the `k`-th `sendRequest`
uses transaction id `k` for `1 ≤ k ≤ 0xFFFE`, the id `0xFFFF` is never handed
out, and the counter wraps around after handing out `0xFFFE` (the next id is
`0`). -/
theorem txid_allocation (k : Nat) :
    (1 ≤ k → k ≤ 0xFFFE → txIdAfter k = k) ∧
    txIdAfter k ≠ 0xFFFF ∧
    txIdAfter 0xFFFF = 0 := by
  refine ⟨fun h1 h2 => ?_, ?_, ?_⟩ <;> rw [txIdAfter_eq_mod]
  · omega
  · omega

/-- Witness for claim C6: the second call uses id 2, which is not 0xFFFF. -/
theorem txid_allocation_witness :
    txIdAfter 2 = 2 ∧ txIdAfter 2 ≠ 0xFFFF :=
  ⟨(txid_allocation 2).1 (by decide) (by decide), (txid_allocation 2).2.1⟩

/-- Claim C7 (code bug): with echo enabled, a transaction in flight for unit
1, a last transmitted ADU of 8 bytes, and only the 5 bytes `01 03 00 00 00`
accumulated when the end-of-frame timer fires, the handler does not discard
the buffer and fail with a no-echo error: it skips a single byte and parses
the remainder as a frame, failing with `InvalidChecksum` (and resetting the
echo count to 1).  Even when exactly the echoed ADU and nothing else arrived
(second conjunct), the handler discards the buffer and returns without
failing the transaction — the no-echo error delivery is commented out in the
source. -/
theorem rtu_echo_shortfall_behaviour :
    rtuHandleFrameData true 1 8 [1, 3, 0, 0, 0] = (.failed .invalidChecksum, 1) ∧
    rtuHandleFrameData true 1 5 [1, 2, 3, 4, 5] = (.noEchoReturn, 5) := by
  exact ⟨rfl, rfl⟩

/-- Claim C8: the Tunnel transport queues at most two transactions — with
none pending a `sendRequest` makes the submitted transaction current and
starts it; with one pending it stores the submission as next and returns;
with both current and next occupied it throws synchronously. -/
theorem tunnelSendRequest_concurrency (s : TunnelState) (t : Nat) :
    (s.transaction = none →
      tunnelSendRequest s t =
        .ok ({ s with transaction := some t }, [.started t])) ∧
    (s.transaction ≠ none → s.nextTransaction = none →
      tunnelSendRequest s t = .ok ({ s with nextTransaction := some t }, [])) ∧
    (s.transaction ≠ none → s.nextTransaction ≠ none →
      ∃ msg, tunnelSendRequest s t = .error msg) := by
  refine ⟨fun h => ?_, fun h1 h2 => ?_, fun h1 h2 => ?_⟩
  · simp [tunnelSendRequest, h, tunnelStartTransaction]
  · simp [tunnelSendRequest, h1, h2]
  · refine ⟨"Sending too many requests to TunnelTransport.", ?_⟩
    simp [tunnelSendRequest, h1, h2]

/-- Witness for claim C8: a first `sendRequest` starts the transaction, a
second queues as next. -/
theorem tunnelSendRequest_concurrency_witness :
    tunnelSendRequest ⟨none, none, 0⟩ 1 =
      .ok (⟨some 1, none, 0⟩, [.started 1]) ∧
    tunnelSendRequest ⟨some 1, none, 0⟩ 2 =
      .ok (⟨some 1, some 2, 0⟩, []) := by
  have h1 := (tunnelSendRequest_concurrency ⟨none, none, 0⟩ 1).1 rfl
  have h2 := (tunnelSendRequest_concurrency ⟨some 1, none, 0⟩ 2).2.1
    (by simp) rfl
  exact ⟨h1, h2⟩

/-- Claim C9: a well-framed inbound Tunnel frame whose unit byte differs from
the configured slave id leaves the sequence counter and both queued
transactions unchanged. -/
theorem tunnel_foreign_unit_preserves_state (slaveId : Nat) (s : TunnelState)
    (bytes : List Nat) (hlen : 4 ≤ bytes.length)
    (hcrc : tunnelValidate (bytes.headD 0)
        ((bytes.drop 1).take ((bytes.drop 1).length - 2))
        (shiftUInt16LE ((bytes.drop 1).drop ((bytes.drop 1).length - 2))) = true)
    (hunit : bytes.headD 0 ≠ slaveId) :
    (tunnelHandleFrameData slaveId s bytes).1 = s := by
  simp only [tunnelHandleFrameData]
  split_ifs <;> rfl

/-- Witness for claim C9: a well-framed frame for unit 5 heard by slave 127
leaves the state untouched. -/
theorem tunnel_foreign_unit_preserves_state_witness :
    (tunnelHandleFrameData 127 ⟨some 1, some 2, 5⟩ (tunnelFrame 5 [71, 0])).1 =
      ⟨some 1, some 2, 5⟩ := by
  exact tunnel_foreign_unit_preserves_state 127 ⟨some 1, some 2, 5⟩
    (tunnelFrame 5 [71, 0]) (by decide) (by decide) (by decide)

/-- Claim C10: `WriteSingleCoilResponse.fromBuffer` succeeds on every 5-byte
buffer starting with `0x05`, decoding the state as ON exactly when the 16-bit
value field equals `0xFF00` (any other value decodes as OFF rather than
erroring), and re-encoding normalizes the value field to `0xFF00`/`0x0000`. -/
theorem writeSingleCoil_decode_encode (b1 b2 b3 b4 : Nat)
    (h1 : b1 < 256) (h2 : b2 < 256) :
    WriteSingleCoilResponse.fromBuffer [0x05, b1, b2, b3, b4] =
      .ok { address := b1 * 256 + b2, state := b3 * 256 + b4 == 0xFF00 } ∧
    WriteSingleCoilResponse.toBuffer
        { address := b1 * 256 + b2, state := b3 * 256 + b4 == 0xFF00 } =
      [0x05, b1, b2, if b3 * 256 + b4 == 0xFF00 then 0xFF else 0x00, 0x00] := by
  constructor
  · simp only [WriteSingleCoilResponse.fromBuffer, assertBufferLength,
      assertFunctionCode, readUInt16BE, WriteSingleCoilResponse.make,
      prepareAddress, List.getD, List.length_cons, List.length_nil]
    norm_num
    rw [if_pos (by omega : b1 * 256 + b2 ≤ 65535)]
    rfl
  · simp only [WriteSingleCoilResponse.toBuffer, writeUInt16BE]
    split <;>
      · simp only [List.cons_append, List.nil_append, List.cons.injEq,
          and_true, List.nil_eq, true_and]
        omega

/-- Witness for claim C10: the buffer `05 00 00 00 01` (value field
`0x0001`) decodes as OFF without error and re-encodes with the value field
normalized to `0x0000`. -/
theorem writeSingleCoil_decode_encode_witness :
    WriteSingleCoilResponse.fromBuffer [0x05, 0, 0, 0, 1] =
      .ok { address := 0, state := false } ∧
    WriteSingleCoilResponse.toBuffer { address := 0, state := false } =
      [0x05, 0, 0, 0, 0] := by
  have h := writeSingleCoil_decode_encode 0 0 0 1 (by decide) (by decide)
  exact ⟨by simpa using h.1, by simpa using h.2⟩
